import Mathlib

/-!
# Deduplication core (`lib/dedupe.js`) — shallow embedding

This file embeds the deduplication engine of the ai-sdr repository:
tokenizer, Jaccard similarity scorer, tiered duplicate classifier,
batch deduplicator and existence checker, together with the
content-hash fingerprint (`generateId`, SHA-256 based).

Modeling conventions:
* JS posting fields are optional strings; every read site coerces a
  missing field with `|| ''`, and `undefined`/`""` are both falsy, so a
  field is modeled as a `String` with `""` standing for "absent".
* A JS `Set` is modeled as a duplicate-free list (`List.dedup`); the
  code only ever uses set size and membership.
* `jaccardSimilarity` returns `intersection.size / union.size` as an
  IEEE double; the sizes are small naturals, modeled exactly in `ℚ`.
  When the union is empty the JS division yields `NaN`; this is modeled
  by `Option ℚ` with `none` for `NaN`.  Every JS comparison against
  `NaN` is false, which `simGe` reproduces.
* `crypto.createHash('sha256').update(content)` hashes the UTF-8 bytes
  of the content string; SHA-256 is implemented below over `Nat` with
  explicit reduction mod `2^32`.  `.digest('hex').slice(0, 16)` is
  modeled by taking the first 16 hex characters.
* The dedupe loop mutates its input records in place (`lead.id = ...`);
  the loop below threads a `processed` list recording the
  caller-visible state of each input record after the loop body ran.
-/

/-- A posting/lead record.  `""` models an absent field. -/
structure Lead where
  id : String := ""
  source : String := ""
  url : String := ""
  title : String := ""
  text : String := ""
deriving DecidableEq, Repr

/-- A duplicate record `{ ...lead, duplicateOf: existing.id }`. -/
structure DupLead where
  lead : Lead
  duplicateOf : String
deriving DecidableEq, Repr

/-- The `options` object of `new Deduplicator(options)`; `none` models an
absent property. -/
structure DedupeOptions where
  similarityThreshold : Option ℚ := none
  titleThreshold : Option ℚ := none
deriving DecidableEq, Repr

/-- A detector instance holding its two thresholds. -/
structure Deduplicator where
  similarityThreshold : ℚ
  titleThreshold : ℚ
deriving DecidableEq, Repr

/-- Fallback `options.x || default`: a JS number is falsy when it is `0` (or `NaN`,
which a `ℚ`-valued option cannot hold), so a supplied `0` falls back to
the default exactly like an absent property. -/
def jsNumOr (v : Option ℚ) (d : ℚ) : ℚ :=
  match v with
  | some x => if x = 0 then d else x
  | none => d

/-- The constructor of `Deduplicator`. -/
def mkDeduplicator (options : DedupeOptions) : Deduplicator :=
  { similarityThreshold := jsNumOr options.similarityThreshold 0.85
    titleThreshold := jsNumOr options.titleThreshold 0.9 }

/-! ## SHA-256 (for `generateId`) -/

/-- UTF-8 encoding of one character (Node hashes the content string as
UTF-8 bytes). -/
def charUtf8 (c : Char) : List Nat :=
  let n := c.toNat
  if n < 128 then [n]
  else if n < 2048 then [192 + n / 64, 128 + n % 64]
  else if n < 65536 then [224 + n / 4096, 128 + n / 64 % 64, 128 + n % 64]
  else [240 + n / 262144, 128 + n / 4096 % 64, 128 + n / 64 % 64, 128 + n % 64]

/-- UTF-8 bytes of a string. -/
def strBytes (s : String) : List Nat :=
  (s.data.map charUtf8).flatten

/-- Addition mod `2^32`. -/
def add32 (a b : Nat) : Nat := (a + b) % 4294967296

/-- Right rotation of a 32-bit word. -/
def rotr32 (x k : Nat) : Nat := ((x >>> k) ||| (x <<< (32 - k))) % 4294967296

/-- Bitwise complement of a 32-bit word. -/
def not32 (x : Nat) : Nat := x ^^^ 4294967295

def bigSigma0 (x : Nat) : Nat := rotr32 x 2 ^^^ rotr32 x 13 ^^^ rotr32 x 22

def bigSigma1 (x : Nat) : Nat := rotr32 x 6 ^^^ rotr32 x 11 ^^^ rotr32 x 25

def smallSigma0 (x : Nat) : Nat := rotr32 x 7 ^^^ rotr32 x 18 ^^^ (x >>> 3)

def smallSigma1 (x : Nat) : Nat := rotr32 x 17 ^^^ rotr32 x 19 ^^^ (x >>> 10)

def ch32 (x y z : Nat) : Nat := (x &&& y) ^^^ (not32 x &&& z)

def maj32 (x y z : Nat) : Nat := (x &&& y) ^^^ (x &&& z) ^^^ (y &&& z)

/-- The 64 SHA-256 round constants. -/
def sha256K : List Nat :=
  [1116352408, 1899447441, 3049323471, 3921009573, 961987163,
   1508970993, 2453635748, 2870763221, 3624381080, 310598401,
   607225278, 1426881987, 1925078388, 2162078206, 2614888103,
   3248222580, 3835390401, 4022224774, 264347078, 604807628,
   770255983, 1249150122, 1555081692, 1996064986, 2554220882,
   2821834349, 2952996808, 3210313671, 3336571891, 3584528711,
   113926993, 338241895, 666307205, 773529912, 1294757372,
   1396182291, 1695183700, 1986661051, 2177026350, 2456956037,
   2730485921, 2820302411, 3259730800, 3345764771, 3516065817,
   3600352804, 4094571909, 275423344, 430227734, 506948616,
   659060556, 883997877, 958139571, 1322822218, 1537002063,
   1747873779, 1955562222, 2024104815, 2227730452, 2361852424,
   2428436474, 2756734187, 3204031479, 3329325298]

/-- The SHA-256 initial hash value. -/
def sha256H0 : List Nat :=
  [1779033703, 3144134277, 1013904242, 2773480762,
   1359893119, 2600822924, 528734635, 1541459225]

/-- Big-endian 8-byte encoding of a length in bits. -/
def beBytes8 (n : Nat) : List Nat :=
  (List.range 8).map (fun i => n >>> ((7 - i) * 8) % 256)

/-- SHA-256 padding: `0x80`, zeros, then the 64-bit message bit length. -/
def padMessage (bytes : List Nat) : List Nat :=
  let padZeros := (64 - (bytes.length + 9) % 64) % 64
  bytes ++ 128 :: List.replicate padZeros 0 ++ beBytes8 (bytes.length * 8)

/-- Split a byte list into 64-byte blocks. -/
def chunks64 : List Nat → List (List Nat)
  | [] => []
  | b :: bs => ((b :: bs).take 64) :: chunks64 ((b :: bs).drop 64)
termination_by l => l.length
decreasing_by simp [List.length_drop]; omega

/-- Big-endian 32-bit word `t` of a block. -/
def beWord (bytes : List Nat) (t : Nat) : Nat :=
  bytes.getD (4 * t) 0 * 16777216 + bytes.getD (4 * t + 1) 0 * 65536 +
    bytes.getD (4 * t + 2) 0 * 256 + bytes.getD (4 * t + 3) 0

/-- Extend the message schedule by one word. -/
def scheduleStep (w : List Nat) : List Nat :=
  let t := w.length
  w ++ [(smallSigma1 (w.getD (t - 2) 0) + w.getD (t - 7) 0 +
         smallSigma0 (w.getD (t - 15) 0) + w.getD (t - 16) 0) % 4294967296]

/-- The 64-word message schedule of one block. -/
def msgSchedule (block : List Nat) : List Nat :=
  (List.range 48).foldl (fun w _ => scheduleStep w) ((List.range 16).map (beWord block))

/-- One SHA-256 round on the working state `[a,b,c,d,e,f,g,h]`. -/
def sha256Round (st : List Nat) (kw : Nat × Nat) : List Nat :=
  let a := st.getD 0 0
  let b := st.getD 1 0
  let c := st.getD 2 0
  let d := st.getD 3 0
  let e := st.getD 4 0
  let f := st.getD 5 0
  let g := st.getD 6 0
  let h := st.getD 7 0
  let t1 := (h + bigSigma1 e + ch32 e f g + kw.1 + kw.2) % 4294967296
  let t2 := (bigSigma0 a + maj32 a b c) % 4294967296
  [add32 t1 t2, a, b, c, add32 d t1, e, f, g]

/-- Compress one 64-byte block into the running hash. -/
def sha256Compress (h : List Nat) (block : List Nat) : List Nat :=
  let st := (sha256K.zip (msgSchedule block)).foldl sha256Round h
  List.zipWith add32 h st

/-- The eight 32-bit words of the SHA-256 digest of a byte list. -/
def sha256Words (bytes : List Nat) : List Nat :=
  let h := (chunks64 (padMessage bytes)).foldl sha256Compress sha256H0
  [h.getD 0 0, h.getD 1 0, h.getD 2 0, h.getD 3 0,
   h.getD 4 0, h.getD 5 0, h.getD 6 0, h.getD 7 0]

/-- Lower-case hex digit. -/
def hexDigit (n : Nat) : Char :=
  if n < 10 then Char.ofNat (48 + n) else Char.ofNat (87 + n)

/-- The 8 hex characters of a 32-bit word, most significant first. -/
def wordHex (w : Nat) : List Char :=
  (List.range 8).map (fun i => hexDigit (w >>> ((7 - i) * 4) % 16))

/-- The 64-character hex digest of the SHA-256 of a string. -/
def sha256HexChars (s : String) : List Char :=
  ((sha256Words (strBytes s)).map wordHex).flatten

/-- The fingerprint `generateId`: first 16 hex characters of the SHA-256 of
`source + ":" + (url || "") + ":" + (title || text || "")`. -/
def generateId (lead : Lead) : String :=
  let content :=
    lead.source ++ ":" ++ lead.url ++ ":" ++
      (if lead.title = "" then lead.text else lead.title)
  ⟨(sha256HexChars content).take 16⟩

/-! ## Tokenizer and similarity scorer -/

/-- A JS `\w` character: the source lower-cases first, then replaces every
character outside `\w` and `\s` by a space and splits on whitespace, so a
token is a maximal run of word characters. -/
def isWordChar (c : Char) : Bool := c.isAlphanum || c == '_'

/-- Split a character list into maximal runs of word characters; `acc`
holds the current run in reverse. -/
def splitTokensAux : List Char → List Char → List String
  | [], acc => if acc.isEmpty then [] else [⟨acc.reverse⟩]
  | c :: cs, acc =>
    if isWordChar c then splitTokensAux cs (c :: acc)
    else if acc.isEmpty then splitTokensAux cs []
    else ⟨acc.reverse⟩ :: splitTokensAux cs []

/-- The tokenizer `tokenize(text)`: lower-case, split into word-character runs, drop
tokens of length ≤ 2.  An absent text is the empty string. -/
def tokenize (text : String) : List String :=
  (splitTokensAux (text.data.map Char.toLower) []).filter (fun w => w.length > 2)

/-- The scorer `jaccardSimilarity(str1, str2)`: `|set1 ∩ set2| / |set1 ∪ set2|`.
`none` models the `NaN` that `0/0` produces when both token sets are
empty. -/
def jaccardSimilarity (str1 str2 : String) : Option ℚ :=
  let set1 := (tokenize str1).dedup
  let set2 := (tokenize str2).dedup
  let inter := set1.filter (fun x => set2.contains x)
  let union := (set1 ++ set2).dedup
  if union.length = 0 then none
  else some ((inter.length : ℚ) / (union.length : ℚ))

/-- The JS comparison `sim >= threshold` on a similarity score: every
comparison against `NaN` (`none`) is false. -/
def simGe (sim : Option ℚ) (threshold : ℚ) : Bool :=
  match sim with
  | some q => decide (threshold ≤ q)
  | none => false

/-! ## Duplicate classifier, batch deduplicator, existence checker -/

/-- The classifier `isDuplicate(lead1, lead2)`: tiered, short-circuiting — URL identity,
then same-source title overlap, then general content overlap. -/
def isDuplicate (d : Deduplicator) (lead1 lead2 : Lead) : Bool :=
  if (lead1.url != "") && (lead2.url != "") && (lead1.url == lead2.url) then
    true
  else if (lead1.source == lead2.source) &&
      simGe (jaccardSimilarity lead1.title lead2.title) d.titleThreshold then
    true
  else
    simGe (jaccardSimilarity (lead1.title ++ " " ++ lead1.text)
      (lead2.title ++ " " ++ lead2.text)) d.similarityThreshold

/-- The in-place `if (!lead.id) lead.id = this.generateId(lead)` at the top
of the dedupe loop body (`""` is falsy). -/
def assignId (lead : Lead) : Lead :=
  if lead.id = "" then { lead with id := generateId lead } else lead

/-- The loop of `dedupe`.  `processed` records the caller-visible state of
the input records already consumed (the loop mutates each record's `id`
in place); `unique` and `duplicates` are the two output accumulators.
`List.find?` returns the first accumulated unique record (insertion
order) that `isDuplicate` matches, exactly like the inner `for`/`break`. -/
def dedupeLoop (d : Deduplicator) :
    List Lead → List Lead → List Lead → List DupLead →
    List Lead × List Lead × List DupLead
  | [], processed, unique, duplicates => (processed, unique, duplicates)
  | lead0 :: rest, processed, unique, duplicates =>
    let lead := assignId lead0
    match unique.find? (fun existing => isDuplicate d lead existing) with
    | some existing =>
        dedupeLoop d rest (processed ++ [lead]) unique (duplicates ++ [⟨lead, existing.id⟩])
    | none =>
        dedupeLoop d rest (processed ++ [lead]) (unique ++ [lead]) duplicates

/-- The batch deduplicator `dedupe(leads)`: the returned pair of the
unique list and the duplicates list. -/
def dedupe (d : Deduplicator) (leads : List Lead) : List Lead × List DupLead :=
  (dedupeLoop d leads [] [] []).2

/-- The caller-visible state of the input list after `dedupe` returned
(each record got an `id` assigned in place when it lacked one). -/
def dedupeMutated (d : Deduplicator) (leads : List Lead) : List Lead :=
  (dedupeLoop d leads [] [] []).1

/-- The store collaborator of `checkExisting`: an id lookup and the full
collection. -/
structure Db where
  getLeadById : String → Option Lead
  getAllLeads : List Lead

/-- The result shape of `checkExisting`; an absent `similar` key is the
falsy `false`, an absent `lead` key is `none`. -/
structure CheckResult where
  «exists» : Bool
  lead : Option Lead := none
  similar : Bool := false
deriving DecidableEq, Repr

/-- The existence checker `checkExisting(lead, db)`: exact id lookup first, then the classifier
against every stored lead in store order. -/
def checkExisting (d : Deduplicator) (lead : Lead) (db : Db) : CheckResult :=
  match db.getLeadById lead.id with
  | some existing => { «exists» := true, lead := some existing }
  | none =>
    match db.getAllLeads.find? (fun existing => isDuplicate d lead existing) with
    | some existing => { «exists» := true, lead := some existing, similar := true }
    | none => { «exists» := false }

/-! ## Helper lemmas -/

/-- A list union with a superset on the right collapses to the right list. -/
theorem list_union_eq_right {α : Type} [DecidableEq α] :
    ∀ l₁ l₂ : List α, l₁ ⊆ l₂ → l₁ ∪ l₂ = l₂
  | [], _, _ => rfl
  | a :: l₁, l₂, h => by
    rw [List.cons_union,
      list_union_eq_right l₁ l₂ (fun x hx => h (List.mem_cons_of_mem _ hx))]
    exact List.insert_of_mem (h (List.mem_cons_self _ _))

/-- The library search `find?` returns the element at the first index
satisfying the predicate. -/
theorem find?_first_index {α : Type} (p : α → Bool) :
    ∀ l : List α, (∃ x ∈ l, p x = true) →
      ∃ j, ∃ hj : j < l.length,
        p (l.get ⟨j, hj⟩) = true ∧
        (∀ k, ∀ hk : k < j, p (l.get ⟨k, Nat.lt_trans hk hj⟩) = false) ∧
        l.find? p = some (l.get ⟨j, hj⟩)
  | [], h => absurd h (by simp)
  | a :: l, h => by
    by_cases hp : p a = true
    · exact ⟨0, by simp, hp, fun k hk => absurd hk (Nat.not_lt_zero k),
        by simp [List.find?_cons_of_pos _ hp]⟩
    · have h' : ∃ x ∈ l, p x = true := by
        obtain ⟨x, hx, hpx⟩ := h
        rcases List.mem_cons.mp hx with rfl | hx'
        · exact absurd hpx hp
        · exact ⟨x, hx', hpx⟩
      obtain ⟨j, hj, h1, h2, h3⟩ := find?_first_index p l h'
      refine ⟨j + 1, Nat.succ_lt_succ hj, by simpa using h1, ?_, ?_⟩
      · intro k hk
        match k with
        | 0 => simpa using Bool.not_eq_true _ ▸ (by simpa using hp)
        | k + 1 => simpa using h2 k (Nat.lt_of_succ_lt_succ hk)
      · simpa [List.find?_cons_of_neg _ hp] using h3

/-- Conversely, if the element at index `j` satisfies the predicate and no
earlier one does, `find?` returns exactly that element. -/
theorem find?_eq_of_first {α : Type} (p : α → Bool) :
    ∀ (l : List α) (j : Nat) (hj : j < l.length),
      p (l.get ⟨j, hj⟩) = true →
      (∀ k, ∀ hk : k < j, p (l.get ⟨k, Nat.lt_trans hk hj⟩) = false) →
      l.find? p = some (l.get ⟨j, hj⟩)
  | [], j, hj, _, _ => absurd hj (by simp)
  | a :: l, 0, hj, h1, _ => by
    simp only [List.get] at h1 ⊢
    simp [List.find?_cons_of_pos _ h1]
  | a :: l, j + 1, hj, h1, h2 => by
    have ha : p a = false := by simpa using h2 0 (Nat.succ_pos j)
    have := find?_eq_of_first p l j (Nat.lt_of_succ_lt_succ hj) (by simpa using h1)
      (fun k hk => by simpa using h2 (k + 1) (Nat.succ_lt_succ hk))
    simpa [List.find?_cons_of_neg, ha]

/-- Each hex-encoded word contributes exactly 8 characters. -/
theorem wordHex_length (w : Nat) : (wordHex w).length = 8 := by
  simp [wordHex]

/-- The hex digest always has 64 characters. -/
theorem sha256HexChars_length (s : String) : (sha256HexChars s).length = 64 := by
  simp [sha256HexChars, sha256Words, wordHex_length]

/-- A generated fingerprint id is never the empty string. -/
theorem generateId_ne_empty (lead : Lead) : generateId lead ≠ "" := by
  unfold generateId
  intro h
  have h2 := congrArg String.length h
  simp only [String.length] at h2
  rw [List.length_take, sha256HexChars_length] at h2
  simp at h2

/-- After the id-assignment step every record carries a non-empty id. -/
theorem assignId_id_ne_empty (lead : Lead) : (assignId lead).id ≠ "" := by
  unfold assignId
  split
  · exact generateId_ne_empty lead
  · assumption

/-- Assigning an id twice is the same as assigning it once. -/
theorem assignId_idem (lead : Lead) : assignId (assignId lead) = assignId lead := by
  rw [assignId, if_neg (assignId_id_ne_empty lead)]

/-- Self-similarity is 1 whenever the token set is non-empty. -/
theorem jaccard_self (a : String) (h : tokenize a ≠ []) :
    jaccardSimilarity a a = some 1 := by
  unfold jaccardSimilarity
  have hnd : ((tokenize a).dedup).Nodup := List.nodup_dedup _
  have hfil : ((tokenize a).dedup).filter
      (fun x => ((tokenize a).dedup).contains x) = (tokenize a).dedup :=
    List.filter_eq_self.mpr (fun x hx => by simpa [List.elem_iff] using hx)
  have hun : ((tokenize a).dedup ++ (tokenize a).dedup).dedup = (tokenize a).dedup := by
    rw [List.dedup_append, hnd.dedup]
    exact list_union_eq_right _ _ (fun x hx => hx)
  have hlen : ((tokenize a).dedup).length ≠ 0 := by
    simpa [List.length_eq_zero, List.dedup_eq_nil] using h
  simp only [hfil, hun, if_neg hlen]
  rw [div_self (by exact_mod_cast hlen)]

/-- When both token sets are empty the union is empty and the scorer
produces the `NaN` of `0/0`. -/
theorem jaccard_both_empty (a b : String) (ha : tokenize a = [])
    (hb : tokenize b = []) : jaccardSimilarity a b = none := by
  simp [jaccardSimilarity, ha, hb]

/-- C1 (amended): for every string whose token set is non-empty,
`similarity(a,a) = 1`; but when both token sets are empty (in particular
for `similarity("","")`) the scorer returns the undefined `0/0` value
(`NaN`, modeled as `none`), not a defined `0`. -/
theorem c1_similarity_identity :
    (∀ a : String, tokenize a ≠ [] → jaccardSimilarity a a = some 1) ∧
    (∀ a b : String, tokenize a = [] → tokenize b = [] →
      jaccardSimilarity a b = none) :=
  ⟨jaccard_self, jaccard_both_empty⟩

/-- C1 counterexample: `similarity("","")` is `NaN` (`none`), not `0`. -/
theorem c1_empty_similarity_counterexample :
    jaccardSimilarity "" "" = none ∧ none ≠ some (0 : ℚ) :=
  ⟨by decide, by decide⟩

/-- Witness for `c1_similarity_identity`. -/
theorem c1_similarity_identity_witness :
    (tokenize "hello world" ≠ [] ∧
      jaccardSimilarity "hello world" "hello world" = some 1) ∧
    (tokenize "ab" = [] ∧ jaccardSimilarity "ab" "ab" = none) :=
  ⟨⟨by decide, c1_similarity_identity.1 "hello world" (by decide)⟩,
   ⟨by decide, c1_similarity_identity.2 "ab" "ab" (by decide) (by decide)⟩⟩

/-- C3 counterexample: `0` lies in `[0,1]`, but a supplied `0` threshold is
not used — `options.x || default` treats the falsy `0` as absent and the
instance gets the defaults instead. -/
theorem c3_zero_threshold_counterexample :
    mkDeduplicator { similarityThreshold := some 0, titleThreshold := some 0 } =
      { similarityThreshold := 0.85, titleThreshold := 0.9 } ∧
    (0.85 : ℚ) ≠ 0 ∧ (0.9 : ℚ) ≠ 0 := by
  refine ⟨?_, by norm_num, by norm_num⟩
  simp [mkDeduplicator, jsNumOr]

/-- C3 (amended): a supplied non-zero threshold is used exactly as given,
and an absent threshold falls back to the documented defaults 0.85
(general) and 0.9 (title); a supplied `0`, although inside `[0,1]`, is
falsy in JS and is replaced by the default. -/
theorem c3_threshold_configuration :
    (∀ s t : ℚ, s ≠ 0 → t ≠ 0 →
      mkDeduplicator { similarityThreshold := some s, titleThreshold := some t } =
        { similarityThreshold := s, titleThreshold := t }) ∧
    mkDeduplicator {} = { similarityThreshold := 0.85, titleThreshold := 0.9 } ∧
    (∀ t : ℚ, t ≠ 0 → mkDeduplicator { titleThreshold := some t } =
        { similarityThreshold := 0.85, titleThreshold := t }) ∧
    (∀ s : ℚ, s ≠ 0 → mkDeduplicator { similarityThreshold := some s } =
        { similarityThreshold := s, titleThreshold := 0.9 }) := by
  refine ⟨fun s t hs ht => ?_, rfl, fun t ht => ?_, fun s hs => ?_⟩ <;>
    simp_all [mkDeduplicator, jsNumOr]

/-- Witness for `c3_threshold_configuration`. -/
theorem c3_threshold_configuration_witness :
    (1 / 2 : ℚ) ≠ 0 ∧ (3 / 4 : ℚ) ≠ 0 ∧
    mkDeduplicator { similarityThreshold := some (1 / 2), titleThreshold := some (3 / 4) } =
      { similarityThreshold := 1 / 2, titleThreshold := 3 / 4 } :=
  ⟨by norm_num, by norm_num,
   c3_threshold_configuration.1 (1 / 2) (3 / 4) (by norm_num) (by norm_num)⟩

/-- C4: two postings with equal non-empty urls are duplicates, whatever
their other fields and whatever the thresholds. -/
theorem c4_url_identity (d : Deduplicator) (lead1 lead2 : Lead)
    (h1 : lead1.url ≠ "") (h2 : lead2.url ≠ "") (heq : lead1.url = lead2.url) :
    isDuplicate d lead1 lead2 = true := by
  have hc : ((lead1.url != "") && (lead2.url != "") && (lead1.url == lead2.url)) = true := by
    simp [h1, h2, heq]
  simp [isDuplicate, hc]

/-- Witness for `c4_url_identity`: same url, different sources, titles,
texts, and a detector with tiny thresholds on the other tiers. -/
theorem c4_url_identity_witness :
    ("http://e.com/1" : String) ≠ "" ∧
    isDuplicate (mkDeduplicator {})
      { id := "1", source := "a", url := "http://e.com/1", title := "Need Facebook Ads Help" }
      { id := "2", source := "b", url := "http://e.com/1", title := "totally unrelated words", text := "and a different body" } = true :=
  ⟨by decide, c4_url_identity _ _ _ (by decide) (by decide) rfl⟩

/-- Each processed posting adds exactly one entry to `unique` or to
`duplicates`. -/
theorem dedupeLoop_length (d : Deduplicator) :
    ∀ (rest processed unique : List Lead) (dups : List DupLead),
      ((dedupeLoop d rest processed unique dups).2.1).length +
          ((dedupeLoop d rest processed unique dups).2.2).length =
        unique.length + dups.length + rest.length
  | [], _, _, _ => by simp [dedupeLoop]
  | lead0 :: rest, processed, unique, dups => by
    simp only [dedupeLoop]
    cases h : unique.find? (fun existing => isDuplicate d (assignId lead0) existing) with
    | some ex =>
        simp only [h]
        rw [dedupeLoop_length d rest (processed ++ [assignId lead0]) unique
          (dups ++ [DupLead.mk (assignId lead0) ex.id])]
        simp [List.length_append]
        omega
    | none =>
        simp only [h]
        rw [dedupeLoop_length d rest (processed ++ [assignId lead0])
          (unique ++ [assignId lead0]) dups]
        simp [List.length_append]
        omega

/-- C7: `unique.length + duplicates.length = input.length`. -/
theorem c7_count_conservation (d : Deduplicator) (leads : List Lead) :
    (dedupe d leads).1.length + (dedupe d leads).2.length = leads.length := by
  simpa [dedupe] using dedupeLoop_length d leads [] [] []

/-- Evaluation lemma for the scorer: the set computations are decidable,
and the final division is produced symbolically (the `ℚ` operations of
the library are irreducible for the kernel). -/
theorem jaccard_eq (str1 str2 : String) (i u : Nat) (hu : u ≠ 0)
    (hi : (((tokenize str1).dedup).filter
      (fun x => ((tokenize str2).dedup).contains x)).length = i)
    (hun : (((tokenize str1).dedup ++ (tokenize str2).dedup).dedup).length = u) :
    jaccardSimilarity str1 str2 = some ((i : ℚ) / (u : ℚ)) := by
  unfold jaccardSimilarity
  simp only [hi, hun, if_neg hu]

/-- C5: threshold comparisons are meet-or-exceed.  Same-source postings
whose title similarity equals the title threshold are duplicates; a title
similarity strictly below the threshold does not fire tier 2, and if the
combined title+text similarity is also strictly below the general
threshold the pair is not a duplicate; a combined similarity equal to the
general threshold fires tier 3. -/
theorem c5_threshold_boundary :
    (∀ (d : Deduplicator) (l1 l2 : Lead), l1.source = l2.source →
      jaccardSimilarity l1.title l2.title = some d.titleThreshold →
      isDuplicate d l1 l2 = true) ∧
    (∀ (d : Deduplicator) (l1 l2 : Lead) (q r : ℚ),
      ¬(l1.url ≠ "" ∧ l2.url ≠ "" ∧ l1.url = l2.url) →
      jaccardSimilarity l1.title l2.title = some q → q < d.titleThreshold →
      jaccardSimilarity (l1.title ++ " " ++ l1.text) (l2.title ++ " " ++ l2.text) = some r →
      r < d.similarityThreshold →
      isDuplicate d l1 l2 = false) ∧
    (∀ (d : Deduplicator) (l1 l2 : Lead),
      jaccardSimilarity (l1.title ++ " " ++ l1.text) (l2.title ++ " " ++ l2.text) =
        some d.similarityThreshold →
      isDuplicate d l1 l2 = true) := by
  refine ⟨?_, ?_, ?_⟩
  · intro d l1 l2 hsrc hsim
    have hc2 : ((l1.source == l2.source) &&
        simGe (jaccardSimilarity l1.title l2.title) d.titleThreshold) = true := by
      rw [hsim]
      simp [hsrc, simGe]
    by_cases h1 : ((l1.url != "") && (l2.url != "") && (l1.url == l2.url)) = true <;>
      simp [isDuplicate, h1, hc2]
  · intro d l1 l2 q r hurl hq hql hr hrl
    have h1 : ((l1.url != "") && (l2.url != "") && (l1.url == l2.url)) = false := by
      cases hh : ((l1.url != "") && (l2.url != "") && (l1.url == l2.url)) with
      | true =>
          refine absurd ?_ hurl
          simpa [and_assoc] using hh
      | false => rfl
    have h2 : ((l1.source == l2.source) &&
        simGe (jaccardSimilarity l1.title l2.title) d.titleThreshold) = false := by
      rw [hq]
      simp [simGe, not_le.mpr hql]
    have h3 : simGe (jaccardSimilarity (l1.title ++ " " ++ l1.text)
        (l2.title ++ " " ++ l2.text)) d.similarityThreshold = false := by
      rw [hr]
      simp [simGe, not_le.mpr hrl]
    simp [isDuplicate, h1, h2, h3]
  · intro d l1 l2 hsim
    have h3 : simGe (jaccardSimilarity (l1.title ++ " " ++ l1.text)
        (l2.title ++ " " ++ l2.text)) d.similarityThreshold = true := by
      rw [hsim]
      simp [simGe]
    simp [isDuplicate, h3]

/-- Witness for `c5_threshold_boundary`: with the default thresholds,
title similarity exactly 9/10 fires tier 2, title and content similarity
4/5 (below both defaults) yields "not duplicates", and content similarity
exactly 17/20 fires tier 3. -/
theorem c5_threshold_boundary_witness :
    (jaccardSimilarity "aaa bbb ccc ddd eee fff ggg hhh iii jjj"
        "aaa bbb ccc ddd eee fff ggg hhh iii" = some (mkDeduplicator {}).titleThreshold ∧
      isDuplicate (mkDeduplicator {})
        { id := "1", source := "s", title := "aaa bbb ccc ddd eee fff ggg hhh iii jjj" }
        { id := "2", source := "s", title := "aaa bbb ccc ddd eee fff ggg hhh iii" } = true) ∧
    (jaccardSimilarity "aaa bbb ccc ddd eee fff ggg hhh iii jjj"
        "aaa bbb ccc ddd eee fff ggg hhh" = some (4 / 5 : ℚ) ∧
      (4 / 5 : ℚ) < (mkDeduplicator {}).titleThreshold ∧
      (4 / 5 : ℚ) < (mkDeduplicator {}).similarityThreshold ∧
      isDuplicate (mkDeduplicator {})
        { id := "1", source := "s", title := "aaa bbb ccc ddd eee fff ggg hhh iii jjj" }
        { id := "2", source := "s", title := "aaa bbb ccc ddd eee fff ggg hhh" } = false) ∧
    (jaccardSimilarity
        ("" ++ " " ++ "taa tab tac tad tae taf tag tah tai taj tak tal tam tan tao tap taq tar tas tat")
        ("" ++ " " ++ "taa tab tac tad tae taf tag tah tai taj tak tal tam tan tao tap taq") =
        some (mkDeduplicator {}).similarityThreshold ∧
      isDuplicate (mkDeduplicator {})
        { id := "1", source := "a",
          text := "taa tab tac tad tae taf tag tah tai taj tak tal tam tan tao tap taq tar tas tat" }
        { id := "2", source := "b",
          text := "taa tab tac tad tae taf tag tah tai taj tak tal tam tan tao tap taq" } = true) := by
  have hsim1 : jaccardSimilarity "aaa bbb ccc ddd eee fff ggg hhh iii jjj"
      "aaa bbb ccc ddd eee fff ggg hhh iii" = some (mkDeduplicator {}).titleThreshold := by
    rw [jaccard_eq _ _ 9 10 (by norm_num) (by decide) (by decide)]
    norm_num [mkDeduplicator, jsNumOr]
  have hq : jaccardSimilarity "aaa bbb ccc ddd eee fff ggg hhh iii jjj"
      "aaa bbb ccc ddd eee fff ggg hhh" = some (4 / 5 : ℚ) := by
    rw [jaccard_eq _ _ 8 10 (by norm_num) (by decide) (by decide)]
    norm_num
  have hr : jaccardSimilarity ("aaa bbb ccc ddd eee fff ggg hhh iii jjj" ++ " " ++ "")
      ("aaa bbb ccc ddd eee fff ggg hhh" ++ " " ++ "") = some (4 / 5 : ℚ) := by
    rw [jaccard_eq _ _ 8 10 (by norm_num) (by decide) (by decide)]
    norm_num
  have hql : (4 / 5 : ℚ) < (mkDeduplicator {}).titleThreshold := by
    norm_num [mkDeduplicator, jsNumOr]
  have hrl : (4 / 5 : ℚ) < (mkDeduplicator {}).similarityThreshold := by
    norm_num [mkDeduplicator, jsNumOr]
  have hsim3 : jaccardSimilarity
      ("" ++ " " ++ "taa tab tac tad tae taf tag tah tai taj tak tal tam tan tao tap taq tar tas tat")
      ("" ++ " " ++ "taa tab tac tad tae taf tag tah tai taj tak tal tam tan tao tap taq") =
      some (mkDeduplicator {}).similarityThreshold := by
    rw [jaccard_eq _ _ 17 20 (by norm_num) (by decide) (by decide)]
    norm_num [mkDeduplicator, jsNumOr]
  exact ⟨⟨hsim1, c5_threshold_boundary.1 _ _ _ rfl hsim1⟩,
    ⟨hq, hql, hrl, c5_threshold_boundary.2.1 _ _ _ (4 / 5) (4 / 5) (by simp) hq hql hr hrl⟩,
    ⟨hsim3, c5_threshold_boundary.2.2 _ _ _ hsim3⟩⟩

/-- Introduction rule for a negative classification: all three tiers fail. -/
theorem isDuplicate_false_intro (d : Deduplicator) (l1 l2 : Lead)
    (hurl : ((l1.url != "") && (l2.url != "") && (l1.url == l2.url)) = false)
    (htitle : ((l1.source == l2.source) &&
      simGe (jaccardSimilarity l1.title l2.title) d.titleThreshold) = false)
    (hcontent : simGe (jaccardSimilarity (l1.title ++ " " ++ l1.text)
      (l2.title ++ " " ++ l2.text)) d.similarityThreshold = false) :
    isDuplicate d l1 l2 = false := by
  simp [isDuplicate, hurl, htitle, hcontent]

/-- Invariant of the dedupe loop: every accumulated unique record is a
fixed point of `assignId`, and no later unique record is a duplicate of
an earlier one. -/
theorem dedupeLoop_unique_inv (d : Deduplicator) :
    ∀ (rest processed unique : List Lead) (dups : List DupLead),
      (∀ x ∈ unique, assignId x = x) →
      List.Pairwise (fun a b => isDuplicate d b a = false) unique →
      (∀ x ∈ (dedupeLoop d rest processed unique dups).2.1, assignId x = x) ∧
      List.Pairwise (fun a b => isDuplicate d b a = false)
        (dedupeLoop d rest processed unique dups).2.1
  | [], _, unique, dups, hfix, hpw => by
    simpa [dedupeLoop] using ⟨hfix, hpw⟩
  | lead0 :: rest, processed, unique, dups, hfix, hpw => by
    simp only [dedupeLoop]
    cases h : unique.find? (fun existing => isDuplicate d (assignId lead0) existing) with
    | some ex =>
        simp only [h]
        exact dedupeLoop_unique_inv d rest _ unique _ hfix hpw
    | none =>
        simp only [h]
        refine dedupeLoop_unique_inv d rest _ (unique ++ [assignId lead0]) _ ?_ ?_
        · intro x hx
          rcases List.mem_append.mp hx with hx' | hx'
          · exact hfix x hx'
          · rw [List.mem_singleton.mp hx']
            exact assignId_idem lead0
        · rw [List.pairwise_append]
          refine ⟨hpw, List.pairwise_singleton _ _, ?_⟩
          intro a ha b hb
          rw [List.mem_singleton.mp hb]
          simpa using List.find?_eq_none.mp h a ha

/-- C2 counterexample: two non-duplicate postings that arrive with the
same caller-supplied id `"x"` both land in `unique`, so the ids in the
output `unique` list are not pairwise distinct. -/
theorem c2_duplicate_ids_counterexample :
    (dedupe (mkDeduplicator {})
        [{ id := "x", source := "a", title := "aaa bbb ccc" },
         { id := "x", source := "b", title := "ddd eee fff" }]).1 =
      [{ id := "x", source := "a", title := "aaa bbb ccc" },
       { id := "x", source := "b", title := "ddd eee fff" }] ∧
    ¬ List.Pairwise (fun p q : Lead => p.id ≠ q.id)
      [({ id := "x", source := "a", title := "aaa bbb ccc" } : Lead),
       { id := "x", source := "b", title := "ddd eee fff" }] := by
  have hdup : isDuplicate (mkDeduplicator {})
      { id := "x", source := "b", title := "ddd eee fff" }
      { id := "x", source := "a", title := "aaa bbb ccc" } = false := by
    apply isDuplicate_false_intro
    · decide
    · decide
    · rw [jaccard_eq _ _ 0 6 (by norm_num) (by decide) (by decide)]
      simp only [simGe, decide_eq_false_iff_not, not_le]
      norm_num [mkDeduplicator, jsNumOr]
  constructor
  · simp [dedupe, dedupeLoop, assignId, hdup]
  · decide

/-- C2 (amended): every posting in the output `unique` list carries a
non-empty id (the fingerprint is assigned at the moment the posting is
processed when the id was missing), but the ids are not guaranteed to be
pairwise distinct within the set — the code never compares ids, so
caller-supplied (or colliding generated) ids survive unchanged. -/
theorem c2_unique_ids_assigned (d : Deduplicator) (leads : List Lead) :
    ∀ p ∈ (dedupe d leads).1, p.id ≠ "" := by
  intro p hp
  have h := (dedupeLoop_unique_inv d leads [] [] [] (by simp) (by simp)).1 p
    (by simpa [dedupe] using hp)
  rw [← h]
  exact assignId_id_ne_empty p

/-- Witness for `c2_unique_ids_assigned`. -/
theorem c2_unique_ids_assigned_witness :
    ({ id := "y", title := "t" } : Lead) ∈
      (dedupe (mkDeduplicator {}) [{ id := "y", title := "t" }]).1 ∧
    ({ id := "y", title := "t" } : Lead).id ≠ "" :=
  ⟨by decide, c2_unique_ids_assigned (mkDeduplicator {}) [{ id := "y", title := "t" }]
    { id := "y", title := "t" } (by decide)⟩

/-- C6: when a posting matches some accumulated unique record, the loop
classifies it as a duplicate of exactly the first matching unique record
(insertion order): it is appended to `duplicates` tagged with that
record's id, `unique` is unchanged, and the remaining unique entries
(which may also match) have no effect on the step. -/
theorem c6_first_match_only (d : Deduplicator) (lead0 : Lead)
    (rest processed unique : List Lead) (dups : List DupLead)
    (h : ∃ ex ∈ unique, isDuplicate d (assignId lead0) ex = true) :
    ∃ j, ∃ hj : j < unique.length,
      isDuplicate d (assignId lead0) (unique.get ⟨j, hj⟩) = true ∧
      (∀ k, ∀ hk : k < j,
        isDuplicate d (assignId lead0) (unique.get ⟨k, Nat.lt_trans hk hj⟩) = false) ∧
      dedupeLoop d (lead0 :: rest) processed unique dups =
        dedupeLoop d rest (processed ++ [assignId lead0]) unique
          (dups ++ [DupLead.mk (assignId lead0) (unique.get ⟨j, hj⟩).id]) := by
  obtain ⟨j, hj, h1, h2, h3⟩ := find?_first_index
    (fun existing => isDuplicate d (assignId lead0) existing) unique (by simpa using h)
  refine ⟨j, hj, by simpa using h1, fun k hk => by simpa using h2 k hk, ?_⟩
  simp only [dedupeLoop, h3]

/-- Witness for `c6_first_match_only`: both accumulated unique records
match (same url), and the duplicate is tagged with the first one's id. -/
theorem c6_first_match_only_witness :
    (∃ ex ∈ [({ id := "u1", url := "http://a" } : Lead), { id := "u2", url := "http://a" }],
      isDuplicate (mkDeduplicator {}) (assignId { id := "n", url := "http://a" }) ex = true) ∧
    ∃ j, ∃ hj : j < ([({ id := "u1", url := "http://a" } : Lead),
        { id := "u2", url := "http://a" }]).length,
      isDuplicate (mkDeduplicator {}) (assignId { id := "n", url := "http://a" })
        (([({ id := "u1", url := "http://a" } : Lead),
          { id := "u2", url := "http://a" }]).get ⟨j, hj⟩) = true ∧
      (∀ k, ∀ hk : k < j,
        isDuplicate (mkDeduplicator {}) (assignId { id := "n", url := "http://a" })
          (([({ id := "u1", url := "http://a" } : Lead),
            { id := "u2", url := "http://a" }]).get ⟨k, Nat.lt_trans hk hj⟩) = false) ∧
      dedupeLoop (mkDeduplicator {}) [{ id := "n", url := "http://a" }] []
          [({ id := "u1", url := "http://a" } : Lead), { id := "u2", url := "http://a" }] [] =
        dedupeLoop (mkDeduplicator {}) [] ([] ++ [assignId { id := "n", url := "http://a" }])
          [({ id := "u1", url := "http://a" } : Lead), { id := "u2", url := "http://a" }]
          ([] ++ [DupLead.mk (assignId { id := "n", url := "http://a" })
            (([({ id := "u1", url := "http://a" } : Lead),
              { id := "u2", url := "http://a" }]).get ⟨j, hj⟩).id]) :=
  ⟨by decide, c6_first_match_only (mkDeduplicator {}) { id := "n", url := "http://a" } []
    [] [{ id := "u1", url := "http://a" }, { id := "u2", url := "http://a" }] []
    (by decide)⟩

/-- C9: `checkExisting` returns the exact-id hit without any similarity
flag when the store lookup succeeds; otherwise it scans the stored
collection in store order and returns the first `isDuplicate` match with
`similar = true`; and it reports "not exists" precisely when the id
lookup misses and no stored posting matches. -/
theorem c9_check_existing :
    (∀ (d : Deduplicator) (lead : Lead) (db : Db) (ex : Lead),
      db.getLeadById lead.id = some ex →
      checkExisting d lead db = { «exists» := true, lead := some ex }) ∧
    (∀ (d : Deduplicator) (lead : Lead) (db : Db),
      db.getLeadById lead.id = none →
      ∀ j, ∀ hj : j < db.getAllLeads.length,
        isDuplicate d lead (db.getAllLeads.get ⟨j, hj⟩) = true →
        (∀ k, ∀ hk : k < j,
          isDuplicate d lead (db.getAllLeads.get ⟨k, Nat.lt_trans hk hj⟩) = false) →
        checkExisting d lead db =
          { «exists» := true, lead := some (db.getAllLeads.get ⟨j, hj⟩),
            similar := true }) ∧
    (∀ (d : Deduplicator) (lead : Lead) (db : Db),
      (checkExisting d lead db).«exists» = false ↔
        db.getLeadById lead.id = none ∧
        ∀ ex ∈ db.getAllLeads, isDuplicate d lead ex = false) := by
  refine ⟨?_, ?_, ?_⟩
  · intro d lead db ex h
    simp [checkExisting, h]
  · intro d lead db hmiss j hj hget hfirst
    have hfind := find?_eq_of_first (fun existing => isDuplicate d lead existing)
      db.getAllLeads j hj (by simpa using hget) (fun k hk => by simpa using hfirst k hk)
    simp [checkExisting, hmiss, hfind]
  · intro d lead db
    cases h1 : db.getLeadById lead.id with
    | some ex => simp [checkExisting, h1]
    | none =>
      cases h2 : db.getAllLeads.find? (fun existing => isDuplicate d lead existing) with
      | some ex =>
          simp only [checkExisting, h1, h2]
          constructor
          · intro hcontra
            cases hcontra
          · rintro ⟨-, hall⟩
            have hmem := List.mem_of_find?_eq_some h2
            have hp : isDuplicate d lead ex = true := by
              simpa using List.find?_some h2
            rw [hall ex hmem] at hp
            cases hp
      | none =>
          simp only [checkExisting, h1, h2]
          constructor
          · intro _
            exact ⟨trivial, fun ex hex => by simpa using List.find?_eq_none.mp h2 ex hex⟩
          · intro _
            trivial

/-- Witness for `c9_check_existing`: an exact-id hit, and a similarity
hit found at the first store position. -/
theorem c9_check_existing_witness :
    checkExisting (mkDeduplicator {}) { id := "q" }
        (Db.mk (fun _ => some { id := "e", title := "stored" }) []) =
      { «exists» := true, lead := some { id := "e", title := "stored" } } ∧
    checkExisting (mkDeduplicator {}) { id := "q2", url := "http://m" }
        (Db.mk (fun _ => none) [{ id := "e2", url := "http://m" }]) =
      { «exists» := true, lead := some { id := "e2", url := "http://m" },
        similar := true } :=
  ⟨c9_check_existing.1 (mkDeduplicator {}) { id := "q" }
      (Db.mk (fun _ => some { id := "e", title := "stored" }) [])
      { id := "e", title := "stored" } rfl,
   c9_check_existing.2.1 (mkDeduplicator {}) { id := "q2", url := "http://m" }
      (Db.mk (fun _ => none) [{ id := "e2", url := "http://m" }]) rfl 0 (by decide)
      (by decide) (fun k hk => absurd hk (Nat.not_lt_zero k))⟩

/-- Running the loop over records that are `assignId`-fixed, match nothing
accumulated, and are pairwise non-duplicates appends them all to `unique`
and finds no duplicates. -/
theorem dedupeLoop_all_unique (d : Deduplicator) :
    ∀ (rest processed unique : List Lead) (dups : List DupLead),
      (∀ l ∈ rest, assignId l = l) →
      (∀ l ∈ rest, ∀ ex ∈ unique, isDuplicate d l ex = false) →
      List.Pairwise (fun a b => isDuplicate d b a = false) rest →
      dedupeLoop d rest processed unique dups = (processed ++ rest, unique ++ rest, dups)
  | [], processed, unique, dups, _, _, _ => by simp [dedupeLoop]
  | lead0 :: rest, processed, unique, dups, hfix, hcross, hpw => by
    have hfix0 : assignId lead0 = lead0 := hfix lead0 (List.mem_cons_self _ _)
    have hfind : unique.find?
        (fun existing => isDuplicate d (assignId lead0) existing) = none :=
      List.find?_eq_none.mpr (fun ex hex => by
        rw [hfix0]
        simp [hcross lead0 (List.mem_cons_self _ _) ex hex])
    obtain ⟨hpw0, hpwrest⟩ := List.pairwise_cons.mp hpw
    simp only [dedupeLoop, hfind]
    rw [hfix0]
    rw [dedupeLoop_all_unique d rest (processed ++ [lead0]) (unique ++ [lead0]) dups
      (fun l hl => hfix l (List.mem_cons_of_mem _ hl))
      (fun l hl ex hex => by
        rcases List.mem_append.mp hex with hex' | hex'
        · exact hcross l (List.mem_cons_of_mem _ hl) ex hex'
        · rw [List.mem_singleton.mp hex']
          exact hpw0 l hl)
      hpwrest]
    simp

/-- C8: feeding the `unique` output of one `dedupe` call back into
`dedupe` returns exactly that list as `unique` (same elements, same
order) and an empty `duplicates` list. -/
theorem c8_batch_idempotence (d : Deduplicator) (leads : List Lead) :
    dedupe d (dedupe d leads).1 = ((dedupe d leads).1, []) := by
  obtain ⟨hfix, hpw⟩ := dedupeLoop_unique_inv d leads [] [] [] (by simp) (by simp)
  have h := dedupeLoop_all_unique d ((dedupeLoop d leads [] [] []).2.1) [] [] [] hfix
    (fun l _ ex hex => absurd hex (List.not_mem_nil ex)) hpw
  simp only [dedupe]
  rw [h]
  simp

/-- The loop's three outputs in terms of the id-assigned inputs: the
processed (caller-visible) list is the input list with ids assigned, and
every record in `unique` or underlying a duplicate entry is one of those
id-assigned inputs (or came from the accumulators). -/
theorem dedupeLoop_outputs (d : Deduplicator) :
    ∀ (rest processed unique : List Lead) (dups : List DupLead),
      (dedupeLoop d rest processed unique dups).1 = processed ++ rest.map assignId ∧
      (∀ p ∈ (dedupeLoop d rest processed unique dups).2.1,
        p ∈ unique ∨ p ∈ rest.map assignId) ∧
      (∀ q ∈ (dedupeLoop d rest processed unique dups).2.2,
        q ∈ dups ∨ q.lead ∈ rest.map assignId)
  | [], processed, unique, dups => by
    refine ⟨by simp [dedupeLoop], ?_, ?_⟩ <;> intro x hx <;>
      simp only [dedupeLoop] at hx <;> exact Or.inl hx
  | lead0 :: rest, processed, unique, dups => by
    simp only [dedupeLoop]
    cases h : unique.find? (fun existing => isDuplicate d (assignId lead0) existing) with
    | some ex =>
        simp only [h]
        obtain ⟨h1, h2, h3⟩ := dedupeLoop_outputs d rest (processed ++ [assignId lead0])
          unique (dups ++ [DupLead.mk (assignId lead0) ex.id])
        refine ⟨by rw [h1]; simp, ?_, ?_⟩
        · intro p hp
          rcases h2 p hp with hp' | hp'
          · exact Or.inl hp'
          · exact Or.inr (by simp [hp'])
        · intro q hq
          rcases h3 q hq with hq' | hq'
          · rcases List.mem_append.mp hq' with hq'' | hq''
            · exact Or.inl hq''
            · rw [List.mem_singleton.mp hq'']
              exact Or.inr (by simp)
          · exact Or.inr (by simp [hq'])
    | none =>
        simp only [h]
        obtain ⟨h1, h2, h3⟩ := dedupeLoop_outputs d rest (processed ++ [assignId lead0])
          (unique ++ [assignId lead0]) dups
        refine ⟨by rw [h1]; simp, ?_, ?_⟩
        · intro p hp
          rcases h2 p hp with hp' | hp'
          · rcases List.mem_append.mp hp' with hp'' | hp''
            · exact Or.inl hp''
            · rw [List.mem_singleton.mp hp'']
              exact Or.inr (by simp)
          · exact Or.inr (by simp [hp'])
        · intro q hq
          rcases h3 q hq with hq' | hq'
          · exact Or.inl hq'
          · exact Or.inr (by simp [hq'])

/-- C10: the observable mutation and frame of `dedupe`.  The caller's
input list after the call is exactly the id-assigned input (a missing id
is overwritten with the fingerprint, a present id and all other fields
are untouched) — so the caller observes the assigned id even for
postings that end up in `duplicates`; every record in `unique` is one of
the (id-assigned) input records, and every `duplicates` entry extends
one of the (id-assigned) input records with a `duplicateOf` tag. -/
theorem c10_mutation_frame :
    (∀ (d : Deduplicator) (leads : List Lead),
      dedupeMutated d leads = leads.map assignId) ∧
    (∀ l : Lead, (assignId l).source = l.source ∧ (assignId l).url = l.url ∧
      (assignId l).title = l.title ∧ (assignId l).text = l.text) ∧
    (∀ l : Lead, l.id ≠ "" → assignId l = l) ∧
    (∀ l : Lead, l.id = "" → (assignId l).id = generateId l) ∧
    (∀ (d : Deduplicator) (leads : List Lead), ∀ p ∈ (dedupe d leads).1,
      p ∈ leads.map assignId) ∧
    (∀ (d : Deduplicator) (leads : List Lead), ∀ q ∈ (dedupe d leads).2,
      q.lead ∈ leads.map assignId) := by
  refine ⟨?_, ?_, ?_, ?_, ?_, ?_⟩
  · intro d leads
    simpa [dedupeMutated] using (dedupeLoop_outputs d leads [] [] []).1
  · intro l
    by_cases h : l.id = "" <;> simp [assignId, h]
  · intro l h
    simp [assignId, h]
  · intro l h
    simp [assignId, h]
  · intro d leads p hp
    rcases (dedupeLoop_outputs d leads [] [] []).2.1 p (by simpa [dedupe] using hp)
      with h | h
    · exact absurd h (List.not_mem_nil p)
    · exact h
  · intro d leads q hq
    rcases (dedupeLoop_outputs d leads [] [] []).2.2 q (by simpa [dedupe] using hq)
      with h | h
    · exact absurd h (List.not_mem_nil q)
    · exact h

/-- Witness for `c10_mutation_frame`: a present id is kept, a missing id
gets the fingerprint, a unique entry is an (id-assigned) input record,
and a duplicate entry extends an (id-assigned) input record. -/
theorem c10_mutation_frame_witness :
    (({ id := "a", title := "t" } : Lead).id ≠ "" ∧
      assignId { id := "a", title := "t" } = { id := "a", title := "t" }) ∧
    (({ title := "t" } : Lead).id = "" ∧
      (assignId { title := "t" }).id = generateId { title := "t" }) ∧
    (({ id := "z", title := "u" } : Lead) ∈
        (dedupe (mkDeduplicator {}) [{ id := "z", title := "u" }]).1 ∧
      ({ id := "z", title := "u" } : Lead) ∈
        ([{ id := "z", title := "u" }] : List Lead).map assignId) ∧
    (DupLead.mk { id := "2", url := "u" } "1" ∈
        (dedupe (mkDeduplicator {}) [{ id := "1", url := "u" }, { id := "2", url := "u" }]).2 ∧
      (DupLead.mk { id := "2", url := "u" } "1").lead ∈
        ([{ id := "1", url := "u" }, { id := "2", url := "u" }] : List Lead).map assignId) :=
  ⟨⟨by decide, c10_mutation_frame.2.2.1 { id := "a", title := "t" } (by decide)⟩,
   ⟨rfl, c10_mutation_frame.2.2.2.1 { title := "t" } rfl⟩,
   ⟨by decide, c10_mutation_frame.2.2.2.2.1 (mkDeduplicator {}) [{ id := "z", title := "u" }]
      { id := "z", title := "u" } (by decide)⟩,
   ⟨by decide, c10_mutation_frame.2.2.2.2.2 (mkDeduplicator {})
      [{ id := "1", url := "u" }, { id := "2", url := "u" }]
      (DupLead.mk { id := "2", url := "u" } "1") (by decide)⟩⟩
